import Mathlib

/-!
Verification of the symlink reconciliation engine of the dotfiles repository
(`src/installer/symlinker.py`), via a shallow embedding of `SymlinkManager`.

The filesystem is modelled as a partial map from paths (component lists) to
entries (regular file, directory, symlink with a raw stored target).  Each
filesystem primitive used by the Python code (`Path.resolve`, `Path.exists`,
`Path.is_symlink`, `Path.is_dir`, `Path.readlink`, `Path.rename`,
`Path.unlink`, `shutil.rmtree`, `Path.symlink_to`) is given its POSIX
semantics over that map.  Primitives that can raise carry both their
intrinsic failure conditions (e.g. `rename` on a missing source,
`symlink_to` onto an occupied path) and an environment oracle `Perm`
recording which operations the surrounding system permits (permissions,
locks); this is how "forcing an operation to fail" is expressed.

A Python function that can let an exception escape is embedded with result
type `Except Unit _`: `.ok` is a normal return, `.error` an unhandled
exception propagating out of the function.
-/

namespace Symlinker

/-- Filesystem paths as absolute component lists (flattened; each component a name). -/
abbrev Path := List String

/-- A filesystem entry: a regular file (with a content tag), a directory,
or a symlink storing its raw (unresolved) target path. -/
inductive Entry
  | file (data : Nat)
  | dir
  | symlink (target : Path)
  deriving DecidableEq

/-- Whether an entry is a symlink (lstat-level test, no following). -/
def Entry.isLink : Entry → Bool
  | .symlink _ => true
  | _ => false

/-- Filesystem state: a partial map from path to entry.  Children of a
directory live at strict extensions of its path. -/
abbrev FS := Path → Option Entry

/-- Boolean path-prefix test: `leads p q` means `q` lies in the subtree
rooted at `p` (including `p` itself). -/
def leads : Path → Path → Bool
  | [], _ => true
  | _ :: _, [] => false
  | a :: as, b :: bs => a == b && leads as bs

/-- `Path.with_name(name + '.bak')`: the sibling backup slot of a path
(last component with the fixed `.bak` suffix appended). -/
def bakName : Path → Path
  | [] => []
  | [x] => [x ++ ".bak"]
  | x :: y :: r => x :: bakName (y :: r)

/-- Effect of a POSIX `rename(src, dst)` on the map: the subtree at `src`
moves to `dst`; anything previously under `dst` is replaced. -/
def renameF (fs : FS) (src dst : Path) : FS := fun q =>
  if leads dst q then fs (src ++ q.drop dst.length)
  else if leads src q then none
  else fs q

/-- Symlink resolution with fuel (the OS bounds symlink chains): follow the
chain of symlink entries starting at `p`.  A nonexistent path resolves to
itself (Python `Path.resolve(strict=False)`). -/
def resolveFuel (fs : FS) : Nat → Path → Path
  | 0, p => p
  | n + 1, p =>
    match fs p with
    | some (.symlink t) => resolveFuel fs n t
    | _ => p

/-- `Path.resolve()`. -/
def resolveP (fs : FS) (p : Path) : Path := resolveFuel fs 40 p

/-- `Path.exists()`: follows symlinks; a dangling symlink does not exist. -/
def existsP (fs : FS) (p : Path) : Bool :=
  match fs (resolveP fs p) with
  | some (.symlink _) => false
  | some _ => true
  | none => false

/-- `Path.is_symlink()`: lstat-level, true iff the entry at `p` itself is a symlink. -/
def isSymlinkP (fs : FS) (p : Path) : Bool :=
  match fs p with
  | some (.symlink _) => true
  | _ => false

/-- `Path.is_dir()`: follows symlinks. -/
def isDirP (fs : FS) (p : Path) : Bool :=
  match fs (resolveP fs p) with
  | some .dir => true
  | _ => false

/-- `Path.readlink()`: raw stored target; raises (here `none`) on a non-symlink. -/
def readlinkP (fs : FS) (p : Path) : Option Path :=
  match fs p with
  | some (.symlink t) => some t
  | _ => none

/-- Entry at `p` is a directory, lstat-level (no following). -/
def rawIsDir (fs : FS) (p : Path) : Bool :=
  match fs p with
  | some .dir => true
  | _ => false

/-- Environment oracle: which mutating operations the surrounding system
permits (permissions, locked files).  `true` everywhere models a healthy
filesystem. -/
structure Perm where
  renameOk : Path → Path → Bool
  unlinkOk : Path → Bool
  rmtreeOk : Path → Bool
  symlinkOk : Path → Bool

/-- The all-permissive environment (no injected failures). -/
def allowAll : Perm :=
  { renameOk := fun _ _ => true
    unlinkOk := fun _ => true
    rmtreeOk := fun _ => true
    symlinkOk := fun _ => true }

/-- `Path.rename(dst)`: raises if the environment forbids it or the source
entry is missing (lstat-level: renaming a dangling symlink succeeds). -/
def renameOp (pm : Perm) (fs : FS) (src dst : Path) : Except Unit FS :=
  if pm.renameOk src dst && (fs src).isSome then .ok (renameF fs src dst)
  else .error ()

/-- `Path.unlink()`: removes the entry itself; raises if forbidden, missing,
or a real directory. -/
def unlinkOp (pm : Perm) (fs : FS) (p : Path) : Except Unit FS :=
  if pm.unlinkOk p && (fs p).isSome && !(rawIsDir fs p) then
    .ok (fun q => if q = p then none else fs q)
  else .error ()

/-- `shutil.rmtree(p)`: removes the whole subtree; raises if forbidden or
`p` is not a real directory. -/
def rmtreeOp (pm : Perm) (fs : FS) (p : Path) : Except Unit FS :=
  if pm.rmtreeOk p && rawIsDir fs p then
    .ok (fun q => if leads p q then none else fs q)
  else .error ()

/-- `dst.symlink_to(target)`: creates a symlink entry at `dst`; raises if
forbidden or `dst` is already occupied (even by a dangling symlink). -/
def symlinkOp (pm : Perm) (fs : FS) (dst target : Path) : Except Unit FS :=
  if pm.symlinkOk dst && (fs dst).isNone then
    .ok (fun q => if q = dst then some (.symlink target) else fs q)
  else .error ()

/-- One constructor per `Printer` call site in `symlinker.py` (the printer
is a fire-and-forget reporter; only which call ran matters). -/
inductive Msg
  | errSourceNotFound      -- line 29: print_error "Source file not found"
  | okAlreadyCorrect       -- lines 36/97/140: print_success "... is already correct"
  | okCreatedBackup        -- line 54: print_success "Created backup"
  | errCleanupFailed       -- line 63: print_error "Failed to clean up destination"
  | errFatalNotClear       -- line 64: print_error "FATAL: Destination path is NOT clear"
  | okCreatedLink          -- line 70: print_success "Created symlink"
  | errLinkFailed          -- line 73: print_error "Failed to create symlink"
  | infoRestoring          -- line 78: print_info "Attempting to restore backup"
  | warnNoInput            -- lines 109/151: print_warning "No input received"
  deriving DecidableEq

/-- Lines 43–65 of `create_symlink`: clear the existing destination, backing
it up when `backup` is set (rotating the backup slot first), catching any
exception (`False` result = the `except` branch at lines 62–65 ran; the
returned map is the state at the point the exception was raised). -/
def tryClear (pm : Perm) (fs : FS) (destination : Path) (backup : Bool) :
    FS × List Msg × Bool :=
  if backup then
    -- lines 46-54; `backup_path = destination.with_name(destination.name + '.bak')`
    -- is `bakName destination`
    match
      (if existsP fs (bakName destination) || isSymlinkP fs (bakName destination) then
        if isDirP fs (bakName destination) && !(isSymlinkP fs (bakName destination)) then
          rmtreeOp pm fs (bakName destination)
        else
          unlinkOp pm fs (bakName destination)
      else .ok fs) with
    | .error _ => (fs, [.errCleanupFailed, .errFatalNotClear], false)
    | .ok fs1 =>
      match renameOp pm fs1 destination (bakName destination) with
      | .ok fs2 => (fs2, [.okCreatedBackup], true)
      | .error _ => (fs1, [.errCleanupFailed, .errFatalNotClear], false)
  else
    -- lines 56-60
    match
      (if isDirP fs destination && !(isSymlinkP fs destination) then
        rmtreeOp pm fs destination
      else
        unlinkOp pm fs destination) with
    | .ok fs1 => (fs1, [], true)
    | .error _ => (fs, [.errCleanupFailed, .errFatalNotClear], false)

/-- Lines 67–80 of `create_symlink`: the final try block.  Create the new
symlink; on failure, when `backup` is set and the backup slot passes the
`exists()` check, rename the backup back onto the destination.  That restore
rename runs inside the `except` handler unguarded, so its own failure is an
exception escaping the method (`.error ()`). -/
def linkOrRestore (pm : Perm) (fs1 : FS) (source destination : Path)
    (backup : Bool) (ms : List Msg) : FS × List Msg × Except Unit Bool :=
  match symlinkOp pm fs1 destination source with
  | .ok fs2 => (fs2, ms ++ [.okCreatedLink], .ok true)
  | .error _ =>
    if backup then
      if existsP fs1 (bakName destination) then
        match renameOp pm fs1 (bakName destination) destination with
        | .ok fs2 => (fs2, ms ++ [.errLinkFailed, .infoRestoring], .ok false)
        | .error _ =>
          -- line 79 raised inside the except handler: propagates
          (fs1, ms ++ [.errLinkFailed, .infoRestoring], .error ())
      else (fs1, ms ++ [.errLinkFailed], .ok false)
    else (fs1, ms ++ [.errLinkFailed], .ok false)

/-- `SymlinkManager.create_symlink` (lines 22–80).  Result: final filesystem,
reporter calls in order, and `.ok b` for a normal `return b`, `.error ()` for
an exception escaping the method. -/
def create_symlink (pm : Perm) (fs : FS) (source destination : Path)
    (backup : Bool) : FS × List Msg × Except Unit Bool :=
  -- line 25 (`source = source.resolve()`) is inlined as `resolveP fs source`
  -- lines 28-30
  if !(existsP fs (resolveP fs source)) then (fs, [.errSourceNotFound], .ok false)
  -- lines 33-40 (readlink on an is_symlink() path does not raise here,
  -- so the `except OSError` arm is dead in the model)
  else if isSymlinkP fs destination &&
      (readlinkP fs destination == some (resolveP fs source)) then
    (fs, [.okAlreadyCorrect], .ok true)
  else
    -- lines 43-65, then 67-80
    match (if existsP fs destination || isSymlinkP fs destination then
            tryClear pm fs destination backup
          else (fs, [], true)) with
    | (fs1, ms, false) => (fs1, ms, .ok false)
    | (fs1, ms, true) =>
      linkOrRestore pm fs1 (resolveP fs source) destination backup ms

/-- `backup_choice.strip().lower() in ['y', 'yes']` (lines 106-107). -/
def parseYesNo (s : String) : Bool :=
  s.trim.toLower == "y" || s.trim.toLower == "yes"

/-- The `SymlinkManager` constructor state (printer elided: reporter calls
are returned in the message log). -/
structure SymlinkManager where
  dotfiles_dir : Path
  home_dir : Path

/-- One iteration of the per-file loop shared by `setup_dotfiles_symlinks`
(lines 89–115) and `setup_config_symlinks` (lines 133–155): the
already-correct pre-check, the interactive backup confirmation (`inp k` is
the `input()` channel for the `k`-th prompt; `none` = `EOFError`, handled at
lines 108–110 / 150–152 by defaulting to a backup plus a warning), then the
`create_symlink` call. -/
def linkStep (pm : Perm) (inp : Nat → Option String) (dest src : Path)
    (fs : FS) (k : Nat) : FS × Nat × List Msg × Except Unit Bool :=
  if isSymlinkP fs dest && (readlinkP fs dest == some (resolveP fs src)) then
    (fs, k, [.okAlreadyCorrect], .ok true)
  else
    let pr : Bool × Nat × List Msg :=
      if existsP fs dest || isSymlinkP fs dest then
        match inp k with
        | some a => (parseYesNo a, k + 1, [])
        | none => (true, k + 1, [.warnNoInput])
      else (true, k, [])
    match pr with
    | (cb, k1, ms1) =>
      match create_symlink pm fs src dest cb with
      | (fs1, ms2, r) => (fs1, k1, ms1 ++ ms2, r)

/-- The batch loop: files strictly in input order, threading the filesystem
and the prompt counter; `all_successful` is the accumulator `acc` and-ed
with every per-file boolean result; an exception escaping `create_symlink`
aborts the whole batch (no handler in the callers). -/
def symlinkLoop (pm : Perm) (inp : Nat → Option String)
    (mk : String → Path × Path) :
    List String → FS → Nat → Bool → FS × Nat × List Msg × Except Unit Bool
  | [], fs, k, acc => (fs, k, [], .ok acc)
  | f :: rest, fs, k, acc =>
    match linkStep pm inp (mk f).1 (mk f).2 fs k with
    | (fs1, k1, ms, .ok b) =>
      match symlinkLoop pm inp mk rest fs1 k1 (acc && b) with
      | (fs2, k2, ms', r) => (fs2, k2, ms ++ ms', r)
    | (fs1, k1, ms, .error e) => (fs1, k1, ms, .error e)

/-- Destination/source pair for a dotfile name (lines 90-91):
`~/.{file}` ← `{dotfiles}/src/assets/{file}`. -/
def dotfilesMk (mgr : SymlinkManager) (file : String) : Path × Path :=
  (mgr.home_dir ++ ["." ++ file], mgr.dotfiles_dir ++ ["src", "assets", file])

/-- Destination/source pair for a config name (lines 134-135):
`~/.config/{file}` ← `{dotfiles}/src/assets/config/{file}`. -/
def configMk (mgr : SymlinkManager) (file : String) : Path × Path :=
  (mgr.home_dir ++ [".config", file],
   mgr.dotfiles_dir ++ ["src", "assets", "config", file])

/-- `config_dir.mkdir(parents=True)` guarded by `not config_dir.exists()`
(lines 127-129). -/
def mkdirIfMissing (fs : FS) (p : Path) : FS :=
  if existsP fs p then fs else fun q => if q = p then some Entry.dir else fs q

/-- `SymlinkManager.setup_dotfiles_symlinks` (lines 82–117). -/
def setup_dotfiles_symlinks (pm : Perm) (inp : Nat → Option String)
    (mgr : SymlinkManager) (files : List String) (fs : FS) :
    FS × Nat × List Msg × Except Unit Bool :=
  symlinkLoop pm inp (dotfilesMk mgr) files fs 0 true

/-- `SymlinkManager.setup_config_symlinks` (lines 119–157). -/
def setup_config_symlinks (pm : Perm) (inp : Nat → Option String)
    (mgr : SymlinkManager) (files : List String) (fs : FS) :
    FS × Nat × List Msg × Except Unit Bool :=
  symlinkLoop pm inp (configMk mgr) files
    (mkdirIfMissing fs (mgr.home_dir ++ [".config"])) 0 true

/-- Specification-side view of a batch: the ordered list of per-mapping
boolean outcomes, threading the same state as the loop; `none` when some
mapping raises rather than returning an outcome.  Used to compare the
orchestrator's aggregate against "the logical AND of all per-mapping
outcomes" as the spec words it. -/
def loopOutcomes (pm : Perm) (inp : Nat → Option String)
    (mk : String → Path × Path) :
    List String → FS → Nat → Option (List Bool)
  | [], _, _ => some []
  | f :: rest, fs, k =>
    match linkStep pm inp (mk f).1 (mk f).2 fs k with
    | (fs1, k1, _, .ok b) =>
      (loopOutcomes pm inp mk rest fs1 k1).map (fun bs => b :: bs)
    | (_, _, _, .error _) => none

/-! ### Path and primitive lemmas -/

theorem leads_refl (p : Path) : leads p p = true := by
  induction p with
  | nil => rfl
  | cons a as ih => simp [leads, ih]

theorem leads_append (r p q : Path) : leads (r ++ p) (r ++ q) = leads p q := by
  induction r with
  | nil => simp
  | cons a as ih => simp [leads, ih]

theorem leads_concat_cons (r : Path) (a b : String) (t : List String) :
    leads (r ++ [a]) (r ++ b :: t) = (a == b) := by
  rw [leads_append]
  simp [leads]

theorem append_suffix_ne (s t : String) (h : t ≠ "") : s ++ t ≠ s := by
  intro he
  apply h
  have hl : (s ++ t).length = s.length := by rw [he]
  rw [String.length_append] at hl
  have : t.length = 0 := by omega
  exact String.ext (List.length_eq_zero.mp this)

theorem bak_ne (s : String) : s ++ ".bak" ≠ s := by
  apply append_suffix_ne
  decide

theorem bakName_concat (r : Path) (n : String) :
    bakName (r ++ [n]) = r ++ [n ++ ".bak"] := by
  induction r with
  | nil => rfl
  | cons a as ih =>
    cases as with
    | nil => rfl
    | cons b bs => simpa [bakName] using ih

theorem resolveFuel_succ (fs : FS) (n : Nat) (p : Path) :
    resolveFuel fs (n + 1) p =
      match fs p with
      | some (.symlink t) => resolveFuel fs n t
      | _ => p := rfl

theorem resolveFuel_none (fs : FS) (n : Nat) (p : Path) (h : fs p = none) :
    resolveFuel fs n p = p := by
  cases n with
  | zero => rfl
  | succ m => rw [resolveFuel_succ, h]

theorem resolveFuel_nonlink (fs : FS) (n : Nat) (p : Path) (e : Entry)
    (h : fs p = some e) (he : e.isLink = false) : resolveFuel fs n p = p := by
  cases n with
  | zero => rfl
  | succ m =>
    rw [resolveFuel_succ, h]
    cases e with
    | file d => rfl
    | dir => rfl
    | symlink t => simp [Entry.isLink] at he

theorem resolveP_none (fs : FS) (p : Path) (h : fs p = none) :
    resolveP fs p = p := resolveFuel_none fs 40 p h

theorem resolveP_nonlink (fs : FS) (p : Path) (e : Entry)
    (h : fs p = some e) (he : e.isLink = false) : resolveP fs p = p :=
  resolveFuel_nonlink fs 40 p e h he

theorem existsP_nonlink (fs : FS) (p : Path) (e : Entry)
    (h : fs p = some e) (he : e.isLink = false) : existsP fs p = true := by
  rw [existsP, resolveP_nonlink fs p e h he, h]
  cases e with
  | file d => rfl
  | dir => rfl
  | symlink t => simp [Entry.isLink] at he

theorem existsP_none (fs : FS) (p : Path) (h : fs p = none) :
    existsP fs p = false := by
  rw [existsP, resolveP_none fs p h, h]

theorem isSymlinkP_none (fs : FS) (p : Path) (h : fs p = none) :
    isSymlinkP fs p = false := by rw [isSymlinkP, h]

theorem isSymlinkP_nonlink (fs : FS) (p : Path) (e : Entry)
    (h : fs p = some e) (he : e.isLink = false) : isSymlinkP fs p = false := by
  rw [isSymlinkP, h]
  cases e with
  | file d => rfl
  | dir => rfl
  | symlink t => simp [Entry.isLink] at he

theorem renameF_dst (fs : FS) (src dst : Path) :
    renameF fs src dst dst = fs src := by
  rw [renameF]
  simp [leads_refl]

theorem renameF_dst_append (fs : FS) (src dst r : Path) :
    renameF fs src dst (dst ++ r) = fs (src ++ r) := by
  rw [renameF]
  have : leads dst (dst ++ r) = true := by
    have := leads_append dst [] r
    simpa using this
  simp [this, List.drop_append]

theorem renameF_src (fs : FS) (src dst : Path) (h : leads dst src = false) :
    renameF fs src dst src = none := by
  rw [renameF]
  simp [h, leads_refl]

theorem renameF_other (fs : FS) (src dst q : Path)
    (h1 : leads dst q = false) (h2 : leads src q = false) :
    renameF fs src dst q = fs q := by
  rw [renameF]
  simp [h1, h2]

theorem leads_eq_true_iff (p q : Path) : leads p q = true ↔ ∃ t, q = p ++ t := by
  induction p generalizing q with
  | nil =>
    simp [leads]
  | cons a as ih =>
    cases q with
    | nil =>
      simp [leads]
    | cons b bs =>
      rw [leads, Bool.and_eq_true, beq_iff_eq]
      constructor
      · rintro ⟨hab, h⟩
        obtain ⟨t, ht⟩ := (ih bs).mp h
        exact ⟨t, by simp [hab, ht]⟩
      · rintro ⟨t, ht⟩
        simp only [List.cons_append, List.cons.injEq] at ht
        exact ⟨ht.1.symm, (ih bs).mpr ⟨t, ht.2⟩⟩

theorem ne_of_leads_false (p q : Path) (h : leads p q = false) : q ≠ p := by
  intro he
  rw [he, leads_refl] at h
  cases h

/-! ### Primitive-operation lemmas -/

theorem renameOp_ok (pm : Perm) (fs : FS) (a c : Path)
    (h1 : pm.renameOk a c = true) (h2 : (fs a).isSome = true) :
    renameOp pm fs a c = .ok (renameF fs a c) := by
  simp [renameOp, h1, h2]

theorem renameOp_err (pm : Perm) (fs : FS) (a c : Path)
    (h1 : pm.renameOk a c = false) :
    renameOp pm fs a c = .error () := by
  simp [renameOp, h1]

theorem unlinkOp_ok (pm : Perm) (fs : FS) (p : Path) (e : Entry)
    (h1 : pm.unlinkOk p = true) (h2 : fs p = some e) (h3 : e ≠ .dir) :
    unlinkOp pm fs p = .ok (fun q => if q = p then none else fs q) := by
  have hr : rawIsDir fs p = false := by
    rw [rawIsDir, h2]
    cases e with
    | file m => rfl
    | dir => exact absurd rfl h3
    | symlink t => rfl
  simp [unlinkOp, h1, h2, hr]

theorem rmtreeOp_ok (pm : Perm) (fs : FS) (p : Path)
    (h1 : pm.rmtreeOk p = true) (h2 : fs p = some .dir) :
    rmtreeOp pm fs p = .ok (fun q => if leads p q then none else fs q) := by
  simp [rmtreeOp, rawIsDir, h1, h2]

theorem symlinkOp_ok (pm : Perm) (fs : FS) (dst t : Path)
    (h1 : pm.symlinkOk dst = true) (h2 : fs dst = none) :
    symlinkOp pm fs dst t =
      .ok (fun q => if q = dst then some (.symlink t) else fs q) := by
  simp [symlinkOp, h1, h2]

theorem symlinkOp_err (pm : Perm) (fs : FS) (dst t : Path)
    (h1 : pm.symlinkOk dst = false) :
    symlinkOp pm fs dst t = .error () := by
  simp [symlinkOp, h1]

/-! ### tryClear lemmas -/

/-- With the environment permitting the rotation and the rename, and the
destination entry present, the backup branch of the clearing step (lines
45-54) succeeds: the backup slot is pruned (whatever occupies it) and the
destination renamed into it. -/
theorem tryClear_backup (pm : Perm) (fs : FS) (d : Path) (e : Entry)
    (hde : fs d = some e)
    (hbd : leads (bakName d) d = false)
    (hren : pm.renameOk d (bakName d) = true)
    (hrm : pm.rmtreeOk (bakName d) = true)
    (hun : pm.unlinkOk (bakName d) = true) :
    ∃ fs1 : FS,
      tryClear pm fs d true = (renameF fs1 d (bakName d), [.okCreatedBackup], true) ∧
        ∀ q, leads (bakName d) q = false → fs1 q = fs q := by
  have hdnb : d ≠ bakName d := ne_of_leads_false _ _ hbd
  cases hbk : fs (bakName d) with
  | none =>
    have h1 : existsP fs (bakName d) = false := existsP_none fs _ hbk
    have h2 : isSymlinkP fs (bakName d) = false := isSymlinkP_none fs _ hbk
    have h3 : renameOp pm fs d (bakName d) = .ok (renameF fs d (bakName d)) :=
      renameOp_ok pm fs d (bakName d) hren (by rw [hde]; rfl)
    refine ⟨fs, ?_, fun q _ => rfl⟩
    rw [tryClear]
    simp [h1, h2, h3]
  | some e' =>
    cases e' with
    | file m =>
      have hex : existsP fs (bakName d) = true :=
        existsP_nonlink fs _ (.file m) hbk rfl
      have hdir : isDirP fs (bakName d) = false := by
        rw [isDirP, resolveP_nonlink fs _ (.file m) hbk rfl, hbk]
      have hu : unlinkOp pm fs (bakName d) =
          .ok (fun q => if q = bakName d then none else fs q) :=
        unlinkOp_ok pm fs _ (.file m) hun hbk (by simp)
      have hr : renameOp pm (fun q => if q = bakName d then none else fs q)
          d (bakName d) =
          .ok (renameF (fun q => if q = bakName d then none else fs q)
            d (bakName d)) :=
        renameOp_ok pm _ d (bakName d) hren (by simp [hdnb, hde])
      refine ⟨(fun q => if q = bakName d then none else fs q), ?_, ?_⟩
      · rw [tryClear]
        simp [hex, hdir, hu, hr]
      · intro q hq
        simp [if_neg (ne_of_leads_false _ _ hq)]
    | dir =>
      have hex : existsP fs (bakName d) = true :=
        existsP_nonlink fs _ .dir hbk rfl
      have hdir : isDirP fs (bakName d) = true := by
        rw [isDirP, resolveP_nonlink fs _ .dir hbk rfl, hbk]
      have hsym : isSymlinkP fs (bakName d) = false :=
        isSymlinkP_nonlink fs _ .dir hbk rfl
      have hm : rmtreeOp pm fs (bakName d) =
          .ok (fun q => if leads (bakName d) q then none else fs q) :=
        rmtreeOp_ok pm fs _ hrm hbk
      have hr : renameOp pm (fun q => if leads (bakName d) q then none else fs q)
          d (bakName d) =
          .ok (renameF (fun q => if leads (bakName d) q then none else fs q)
            d (bakName d)) :=
        renameOp_ok pm _ d (bakName d) hren (by simp [hbd, hde])
      refine ⟨(fun q => if leads (bakName d) q then none else fs q), ?_, ?_⟩
      · rw [tryClear]
        simp [hex, hdir, hsym, hm, hr]
      · intro q hq
        simp [hq]
    | symlink t =>
      have hsym : isSymlinkP fs (bakName d) = true := by
        rw [isSymlinkP, hbk]
      have hu : unlinkOp pm fs (bakName d) =
          .ok (fun q => if q = bakName d then none else fs q) :=
        unlinkOp_ok pm fs _ (.symlink t) hun hbk (by simp)
      have hr : renameOp pm (fun q => if q = bakName d then none else fs q)
          d (bakName d) =
          .ok (renameF (fun q => if q = bakName d then none else fs q)
            d (bakName d)) :=
        renameOp_ok pm _ d (bakName d) hren (by simp [hdnb, hde])
      refine ⟨(fun q => if q = bakName d then none else fs q), ?_, ?_⟩
      · rw [tryClear]
        simp [hsym, hu, hr]
      · intro q hq
        simp [if_neg (ne_of_leads_false _ _ hq)]

/-! ### Frame lemmas: everything outside the destination's and its backup
slot's subtrees is untouched by `create_symlink`. -/

theorem unlinkOp_frame (pm : Perm) (fs fs' : FS) (p q : Path)
    (h : unlinkOp pm fs p = .ok fs') (hq : q ≠ p) : fs' q = fs q := by
  rw [unlinkOp] at h
  split at h
  · simp only [Except.ok.injEq] at h
    rw [← h]
    simp [hq]
  · cases h

theorem rmtreeOp_frame (pm : Perm) (fs fs' : FS) (p q : Path)
    (h : rmtreeOp pm fs p = .ok fs') (hq : leads p q = false) : fs' q = fs q := by
  rw [rmtreeOp] at h
  split at h
  · simp only [Except.ok.injEq] at h
    rw [← h]
    simp [hq]
  · cases h

theorem renameOp_eq (pm : Perm) (fs fs' : FS) (a c : Path)
    (h : renameOp pm fs a c = .ok fs') : fs' = renameF fs a c := by
  rw [renameOp] at h
  split at h
  · simp only [Except.ok.injEq] at h
    exact h.symm
  · cases h

theorem renameOp_ne_error (pm : Perm) (fs : FS) (a c : Path) (u : Unit)
    (h1 : pm.renameOk a c = true) (h2 : (fs a).isSome = true) :
    renameOp pm fs a c ≠ .error u := by
  rw [renameOp_ok pm fs a c h1 h2]
  simp

theorem renameOp_frame (pm : Perm) (fs fs' : FS) (a c q : Path)
    (h : renameOp pm fs a c = .ok fs')
    (h1 : leads a q = false) (h2 : leads c q = false) : fs' q = fs q := by
  rw [renameOp_eq pm fs fs' a c h]
  exact renameF_other fs a c q h2 h1

theorem symlinkOp_frame (pm : Perm) (fs fs' : FS) (dst t q : Path)
    (h : symlinkOp pm fs dst t = .ok fs') (hq : q ≠ dst) : fs' q = fs q := by
  rw [symlinkOp] at h
  split at h
  · simp only [Except.ok.injEq] at h
    rw [← h]
    simp [hq]
  · cases h

theorem tryClear_frame (pm : Perm) (fs : FS) (d : Path) (b : Bool) (q : Path)
    (h1 : leads d q = false) (h2 : leads (bakName d) q = false) :
    (tryClear pm fs d b).1 q = fs q := by
  have hqd : q ≠ d := ne_of_leads_false _ _ h1
  have hqb : q ≠ bakName d := ne_of_leads_false _ _ h2
  rw [tryClear]
  split
  · -- backup branch
    split
    · rfl
    · rename_i fs1 heq
      have hfs1 : fs1 q = fs q := by
        split at heq
        · split at heq
          · exact rmtreeOp_frame pm fs fs1 _ q heq h2
          · exact unlinkOp_frame pm fs fs1 _ q heq hqb
        · simp only [Except.ok.injEq] at heq
          rw [heq]
      split
      · rename_i fs2 heq2
        show fs2 q = fs q
        rw [renameOp_frame pm fs1 fs2 d (bakName d) q heq2 h1 h2, hfs1]
      · exact hfs1
  · -- no-backup branch
    split
    · rename_i fs1 heq
      split at heq
      · exact rmtreeOp_frame pm fs fs1 d q heq h1
      · exact unlinkOp_frame pm fs fs1 d q heq hqd
    · rfl

theorem linkOrRestore_frame (pm : Perm) (fs1 : FS) (s d : Path) (b : Bool)
    (ms : List Msg) (q : Path)
    (h1 : leads d q = false) (h2 : leads (bakName d) q = false) :
    (linkOrRestore pm fs1 s d b ms).1 q = fs1 q := by
  have hqd : q ≠ d := ne_of_leads_false _ _ h1
  rw [linkOrRestore]
  split
  · rename_i fs2 heq
    exact symlinkOp_frame pm fs1 fs2 d s q heq hqd
  · split
    · split
      · split
        · rename_i fs2 heq
          exact renameOp_frame pm fs1 fs2 (bakName d) d q heq h2 h1
        · rfl
      · rfl
    · rfl

theorem create_symlink_frame (pm : Perm) (fs : FS) (s d : Path) (b : Bool)
    (q : Path) (h1 : leads d q = false) (h2 : leads (bakName d) q = false) :
    (create_symlink pm fs s d b).1 q = fs q := by
  rw [create_symlink]
  split
  · rfl
  · split
    · rfl
    · split
      · rename_i fs1 ms heq
        split at heq
        · have := tryClear_frame pm fs d b q h1 h2
          rw [heq] at this
          exact this
        · simp only [Prod.mk.injEq] at heq
          rw [heq.1]
      · rename_i fs1 ms heq
        have hfs1 : fs1 q = fs q := by
          split at heq
          · have := tryClear_frame pm fs d b q h1 h2
            rw [heq] at this
            exact this
          · simp only [Prod.mk.injEq] at heq
            rw [heq.1]
        rw [linkOrRestore_frame pm fs1 (resolveP fs s) d b ms q h1 h2, hfs1]

/-! ### Path facts about the backup slot -/

theorem bak2_ne (s : String) : (s ++ ".bak") ++ ".bak" ≠ s := by
  intro he
  have hl : ((s ++ ".bak") ++ ".bak").length = s.length := by rw [he]
  rw [String.length_append, String.length_append] at hl
  have h4 : ".bak".length = 4 := rfl
  omega

theorem leads_bak_dest (r : Path) (n : String) (t : Path) :
    leads (bakName (r ++ [n])) ((r ++ [n]) ++ t) = false := by
  rw [bakName_concat, List.append_assoc,
    show [n] ++ t = n :: t from rfl, leads_concat_cons]
  exact beq_eq_false_iff_ne.mpr (bak_ne n)

theorem leads_dest_bak (r : Path) (n : String) (t : Path) :
    leads (r ++ [n]) (bakName (r ++ [n]) ++ t) = false := by
  rw [bakName_concat, List.append_assoc,
    show [n ++ ".bak"] ++ t = (n ++ ".bak") :: t from rfl, leads_concat_cons]
  exact beq_eq_false_iff_ne.mpr (Ne.symm (bak_ne n))

theorem isSome_of_existsP (fs : FS) (p : Path) (h : existsP fs p = true) :
    (fs p).isSome = true := by
  cases hfp : fs p with
  | none => rw [existsP_none fs p hfp] at h; cases h
  | some e => rfl

/-! ### Branch-composition lemmas for `create_symlink` -/

/-- Lines 33-37: a destination symlink whose raw stored target equals the
resolved source short-circuits with the already-correct success and no
mutation. -/
theorem create_symlink_already_correct (pm : Perm) (fs : FS) (s d : Path)
    (b : Bool) (hex : existsP fs (resolveP fs s) = true)
    (hd : fs d = some (.symlink (resolveP fs s))) :
    create_symlink pm fs s d b = (fs, [.okAlreadyCorrect], .ok true) := by
  have h1 : isSymlinkP fs d = true := by rw [isSymlinkP, hd]
  have h2 : readlinkP fs d = some (resolveP fs s) := by rw [readlinkP, hd]
  rw [create_symlink]
  simp [hex, h1, h2]

/-- Lines 56-60 (no-backup clearing) succeed for any present destination
entry when the environment permits, leaving the destination slot empty. -/
theorem tryClear_clear (pm : Perm) (fs : FS) (d : Path) (e : Entry)
    (hde : fs d = some e)
    (hrm : pm.rmtreeOk d = true) (hun : pm.unlinkOk d = true) :
    ∃ fs1 : FS, tryClear pm fs d false = (fs1, [], true) ∧ fs1 d = none ∧
      ∀ q, leads d q = false → fs1 q = fs q := by
  cases e with
  | dir =>
    have hdir : isDirP fs d = true := by
      rw [isDirP, resolveP_nonlink fs d .dir hde rfl, hde]
    have hsym : isSymlinkP fs d = false := isSymlinkP_nonlink fs d .dir hde rfl
    have hm : rmtreeOp pm fs d = .ok (fun q => if leads d q then none else fs q) :=
      rmtreeOp_ok pm fs d hrm hde
    refine ⟨(fun q => if leads d q then none else fs q), ?_, ?_, ?_⟩
    · rw [tryClear]
      simp [hdir, hsym, hm]
    · simp [leads_refl]
    · intro q hq
      simp [hq]
  | file m =>
    have hdir : isDirP fs d = false := by
      rw [isDirP, resolveP_nonlink fs d (.file m) hde rfl, hde]
    have hu : unlinkOp pm fs d = .ok (fun q => if q = d then none else fs q) :=
      unlinkOp_ok pm fs d (.file m) hun hde (by simp)
    refine ⟨(fun q => if q = d then none else fs q), ?_, ?_, ?_⟩
    · rw [tryClear]
      simp [hdir, hu]
    · simp
    · intro q hq
      simp [if_neg (ne_of_leads_false _ _ hq)]
  | symlink t =>
    have hsym : isSymlinkP fs d = true := by rw [isSymlinkP, hde]
    have hu : unlinkOp pm fs d = .ok (fun q => if q = d then none else fs q) :=
      unlinkOp_ok pm fs d (.symlink t) hun hde (by simp)
    refine ⟨(fun q => if q = d then none else fs q), ?_, ?_, ?_⟩
    · rw [tryClear]
      simp [hsym, hu]
    · simp
    · intro q hq
      simp [if_neg (ne_of_leads_false _ _ hq)]

/-- Conflicting destination, backup requested: lines 43-54 rotate the slot
and rename the destination into it; execution continues at line 68 with the
displaced subtree sitting at the backup slot. -/
theorem create_symlink_conflict_backup (pm : Perm) (fs : FS) (s d r : Path)
    (n : String) (e : Entry) (hd : d = r ++ [n])
    (hex : existsP fs (resolveP fs s) = true)
    (hde : fs d = some e)
    (hnc : (isSymlinkP fs d && (readlinkP fs d == some (resolveP fs s))) = false)
    (hguard : (existsP fs d || isSymlinkP fs d) = true)
    (hren : pm.renameOk d (bakName d) = true)
    (hrm : pm.rmtreeOk (bakName d) = true)
    (hun : pm.unlinkOk (bakName d) = true) :
    ∃ fs2 : FS,
      (∀ t, fs2 (bakName d ++ t) = fs (d ++ t)) ∧
      fs2 d = none ∧
      (∀ u, fs2 (d ++ u) = none) ∧
      (∀ q, leads d q = false → leads (bakName d) q = false → fs2 q = fs q) ∧
      create_symlink pm fs s d true =
        linkOrRestore pm fs2 (resolveP fs s) d true [.okCreatedBackup] := by
  have hbd : leads (bakName d) d = false := by
    rw [hd]
    have := leads_bak_dest r n []
    rwa [List.append_nil] at this
  obtain ⟨fs1, htc, hfr⟩ := tryClear_backup pm fs d e hde hbd hren hrm hun
  refine ⟨renameF fs1 d (bakName d), ?_, ?_, ?_, ?_, ?_⟩
  · intro t
    rw [renameF_dst_append fs1 d (bakName d) t]
    apply hfr
    rw [hd]
    exact leads_bak_dest r n t
  · exact renameF_src fs1 d (bakName d) hbd
  · intro u
    have h1 : leads (bakName d) (d ++ u) = false := by
      rw [hd]
      exact leads_bak_dest r n u
    have h2 : leads d (d ++ u) = true := (leads_eq_true_iff d (d ++ u)).mpr ⟨u, rfl⟩
    rw [renameF]
    simp [h1, h2]
  · intro q hq1 hq2
    rw [renameF_other fs1 d (bakName d) q hq2 hq1]
    exact hfr q hq2
  · rw [create_symlink]
    simp [hex, hnc, hguard, htc]

/-- Conflicting destination, no backup: lines 56-60 remove the destination;
execution continues at line 68. -/
theorem create_symlink_conflict_clear (pm : Perm) (fs : FS) (s d : Path)
    (e : Entry)
    (hex : existsP fs (resolveP fs s) = true)
    (hde : fs d = some e)
    (hnc : (isSymlinkP fs d && (readlinkP fs d == some (resolveP fs s))) = false)
    (hguard : (existsP fs d || isSymlinkP fs d) = true)
    (hrm : pm.rmtreeOk d = true) (hun : pm.unlinkOk d = true) :
    ∃ fs1 : FS, fs1 d = none ∧ (∀ q, leads d q = false → fs1 q = fs q) ∧
      create_symlink pm fs s d false =
        linkOrRestore pm fs1 (resolveP fs s) d false [] := by
  obtain ⟨fs1, htc, hnone, hfr⟩ := tryClear_clear pm fs d e hde hrm hun
  refine ⟨fs1, hnone, hfr, ?_⟩
  rw [create_symlink]
  simp [hex, hnc, hguard, htc]

/-- Destination entirely absent: lines 43-65 are skipped and execution
continues at line 68 on the unchanged filesystem. -/
theorem create_symlink_absent (pm : Perm) (fs : FS) (s d : Path) (b : Bool)
    (hex : existsP fs (resolveP fs s) = true)
    (hde : fs d = none) :
    create_symlink pm fs s d b = linkOrRestore pm fs (resolveP fs s) d b [] := by
  have h1 : existsP fs d = false := existsP_none fs d hde
  have h2 : isSymlinkP fs d = false := isSymlinkP_none fs d hde
  rw [create_symlink]
  simp [hex, h1, h2]

/-! ### Claim C6 / C10: missing source -/

/-- Shared helper: a source that does not exist after resolution short-circuits
`create_symlink` at lines 28-30 with no filesystem mutation. -/
theorem create_symlink_source_missing (pm : Perm) (fs : FS) (s d : Path) (b : Bool)
    (h : existsP fs (resolveP fs s) = false) :
    create_symlink pm fs s d b = (fs, [.errSourceNotFound], .ok false) := by
  rw [create_symlink]
  simp [h]

/-- C6: if the canonical source path does not exist, `create_symlink` reports
the source-missing error, returns failure, and leaves the filesystem map
(hence the destination's state) pointwise identical. -/
theorem C6_source_missing_no_mutation (pm : Perm) (fs : FS) (s d : Path) (b : Bool)
    (h : existsP fs (resolveP fs s) = false) :
    create_symlink pm fs s d b = (fs, [.errSourceNotFound], .ok false) :=
  create_symlink_source_missing pm fs s d b h

/-- Concrete filesystem for the C6 witness: one real file, no source. -/
def fsW6 : FS := fun p => if p = ["home", "f"] then some (.file 7) else none

/-- C6 witness: a concrete missing source. -/
theorem C6_witness :
    existsP fsW6 (resolveP fsW6 ["repo", "missing"]) = false ∧
      create_symlink allowAll fsW6 ["repo", "missing"] ["home", "f"] true =
        (fsW6, [.errSourceNotFound], .ok false) :=
  ⟨by decide, C6_source_missing_no_mutation allowAll fsW6 ["repo", "missing"]
    ["home", "f"] true (by decide)⟩

/-- C10: a source that is a dangling symlink (its stored target has no entry)
is treated exactly like a missing source: `source.resolve()` follows the link,
`exists()` then fails, and `create_symlink` returns the source-missing failure
with no mutation. -/
theorem C10_dangling_source_is_missing (pm : Perm) (fs : FS) (s d t : Path)
    (b : Bool) (hs : fs s = some (.symlink t)) (ht : fs t = none) :
    create_symlink pm fs s d b = (fs, [.errSourceNotFound], .ok false) := by
  have hres : resolveP fs s = t := by
    rw [resolveP, show (40 : Nat) = 39 + 1 from rfl, resolveFuel_succ, hs]
    exact resolveFuel_none fs 39 t ht
  have hex : existsP fs (resolveP fs s) = false := by
    rw [hres]
    exact existsP_none fs t ht
  rw [create_symlink]
  simp [hex]

/-- Concrete filesystem for the C10 witness: the source is a dangling symlink. -/
def fsW10 : FS := fun p =>
  if p = ["repo", "s"] then some (.symlink ["gone"]) else none

/-- C10 witness: a concrete dangling source symlink. -/
theorem C10_witness :
    fsW10 ["repo", "s"] = some (.symlink ["gone"]) ∧ fsW10 ["gone"] = none ∧
      create_symlink allowAll fsW10 ["repo", "s"] ["home", "f"] true =
        (fsW10, [.errSourceNotFound], .ok false) :=
  ⟨by decide, by decide, C10_dangling_source_is_missing allowAll fsW10
    ["repo", "s"] ["home", "f"] ["gone"] true (by decide) (by decide)⟩

/-! ### Claim C2: already-correct destinations -/

/-- C2 (amended): for a destination that is a symlink whose raw stored
target equals the canonical (resolved) source path, `create_symlink` reports
already-correct, returns success, and performs zero filesystem mutations.
The source side of the comparison is canonicalized (line 25), but the
destination side is the raw `readlink()` result. -/
theorem C2_already_correct_no_mutation (pm : Perm) (fs : FS) (s d : Path)
    (b : Bool) (hex : existsP fs (resolveP fs s) = true)
    (hd : fs d = some (.symlink (resolveP fs s))) :
    create_symlink pm fs s d b = (fs, [.okAlreadyCorrect], .ok true) :=
  create_symlink_already_correct pm fs s d b hex hd

/-- Concrete filesystem for the C2 witness. -/
def fsW2 : FS := fun p =>
  if p = ["repo", "v"] then some (.file 3)
  else if p = ["home", ".v"] then some (.symlink ["repo", "v"]) else none

/-- C2 witness: a destination symlink storing exactly the canonical source. -/
theorem C2_witness :
    existsP fsW2 (resolveP fsW2 ["repo", "v"]) = true ∧
    fsW2 ["home", ".v"] = some (.symlink (resolveP fsW2 ["repo", "v"])) ∧
    create_symlink allowAll fsW2 ["repo", "v"] ["home", ".v"] true =
      (fsW2, [.okAlreadyCorrect], .ok true) :=
  ⟨by decide, by decide, C2_already_correct_no_mutation allowAll fsW2
    ["repo", "v"] ["home", ".v"] true (by decide) (by decide)⟩

/-- Concrete filesystem refuting C2 as stated: `d` is a symlink whose raw
target `s2` is itself a symlink to the canonical source `s`, so `d`
*resolves* to the canonical source without storing it. -/
def fsX2 : FS := fun p =>
  if p = ["s"] then some (.file 0)
  else if p = ["d"] then some (.symlink ["s2"])
  else if p = ["s2"] then some (.symlink ["s"]) else none

/-- C2 counterexample: the destination symlink resolves to the canonical
source, yet `create_symlink` classifies it as a wrong link (line 35 compares
the raw `readlink()` result, not the resolved target): it mutates the
filesystem (the old link is renamed into the backup slot) and reports a
creation, not already-correct. -/
theorem C2_counterexample :
    resolveP fsX2 ["d"] = resolveP fsX2 ["s"] ∧
    (create_symlink allowAll fsX2 ["s"] ["d"] true).2.1 =
      [.okCreatedBackup, .okCreatedLink] ∧
    (create_symlink allowAll fsX2 ["s"] ["d"] true).1 (bakName ["d"]) =
      some (.symlink ["s2"]) ∧
    fsX2 (bakName ["d"]) = none := by
  decide

/-! ### Claim C4: backup-slot rotation, no nesting -/

/-- C4: (a) `create_symlink` never creates a nested backup slot: if
`X.bak.bak` is absent before the call it is absent after, for every
environment, filesystem, and backup flag; (b) when a conflicting destination
is backed up over an occupied slot (healthy environment), the pre-existing
backup is deleted and the displaced destination entry ends up in the slot,
the destination holding the new link — so at most one backup per destination
exists afterwards. -/
theorem C4_backup_rotation :
    (∀ (pm : Perm) (fs : FS) (s d r : Path) (n : String) (b : Bool),
      d = r ++ [n] → fs (bakName (bakName d)) = none →
      (create_symlink pm fs s d b).1 (bakName (bakName d)) = none) ∧
    (∀ (fs : FS) (s d r : Path) (n : String) (es e e' : Entry),
      d = r ++ [n] → fs s = some es → es.isLink = false →
      fs d = some e → e.isLink = false → fs (bakName d) = some e' →
      (create_symlink allowAll fs s d true).1 (bakName d) = some e ∧
      (create_symlink allowAll fs s d true).1 d = some (.symlink s) ∧
      (create_symlink allowAll fs s d true).2.1 =
        [.okCreatedBackup, .okCreatedLink] ∧
      (create_symlink allowAll fs s d true).2.2 = .ok true) := by
  constructor
  · intro pm fs s d r n b hd hbb
    have h1 : leads d (bakName (bakName d)) = false := by
      subst hd
      rw [bakName_concat, bakName_concat, leads_concat_cons]
      exact beq_eq_false_iff_ne.mpr (Ne.symm (bak2_ne n))
    have h2 : leads (bakName d) (bakName (bakName d)) = false := by
      subst hd
      rw [bakName_concat]
      have := leads_dest_bak r (n ++ ".bak") []
      rwa [List.append_nil] at this
    rw [create_symlink_frame pm fs s d b _ h1 h2, hbb]
  · intro fs s d r n es e e' hd hs hsl hde hel hbk
    have hsres : resolveP fs s = s := resolveP_nonlink fs s es hs hsl
    have hex : existsP fs (resolveP fs s) = true := by
      rw [hsres]
      exact existsP_nonlink fs s es hs hsl
    have hnc : (isSymlinkP fs d && (readlinkP fs d == some (resolveP fs s))) =
        false := by
      rw [isSymlinkP_nonlink fs d e hde hel]
      rfl
    have hguard : (existsP fs d || isSymlinkP fs d) = true := by
      rw [existsP_nonlink fs d e hde hel]
      rfl
    obtain ⟨fs2, hbak, hdnone, hdsub, hfr, heq⟩ :=
      create_symlink_conflict_backup allowAll fs s d r n e hd hex hde hnc
        hguard rfl rfl rfl
    have hso : symlinkOp allowAll fs2 d (resolveP fs s) =
        .ok (fun q => if q = d then some (.symlink (resolveP fs s))
          else fs2 q) :=
      symlinkOp_ok allowAll fs2 d _ rfl hdnone
    have hlr : linkOrRestore allowAll fs2 (resolveP fs s) d true
        [.okCreatedBackup] =
        ((fun q => if q = d then some (.symlink (resolveP fs s)) else fs2 q),
          [.okCreatedBackup, .okCreatedLink], .ok true) := by
      rw [linkOrRestore, hso]
      rfl
    have hbdd : bakName d ≠ d := by
      have hl : leads d (bakName d) = false := by
        subst hd
        have := leads_dest_bak r n []
        rwa [List.append_nil] at this
      exact ne_of_leads_false _ _ hl
    have hbake : fs2 (bakName d) = some e := by
      have := hbak []
      rw [List.append_nil, List.append_nil] at this
      rw [this, hde]
    refine ⟨?_, ?_, ?_, ?_⟩
    · rw [heq, hlr]
      show (if bakName d = d then some (.symlink (resolveP fs s))
        else fs2 (bakName d)) = some e
      rw [if_neg hbdd, hbake]
    · rw [heq, hlr]
      show (if d = d then some (.symlink (resolveP fs s)) else fs2 d) =
        some (.symlink s)
      rw [if_pos rfl, hsres]
    · rw [heq, hlr]
    · rw [heq, hlr]

/-- Concrete filesystem for the C4 witness: destination and its backup slot
both occupied. -/
def fsW4 : FS := fun p =>
  if p = ["repo", "v"] then some (.file 3)
  else if p = ["home", ".v"] then some (.file 9)
  else if p = ["home", ".v.bak"] then some (.file 8) else none

/-- C4 witness: both conjuncts applied at a concrete occupied backup slot. -/
theorem C4_witness :
    (fsW4 (bakName (bakName ["home", ".v"])) = none ∧
      (create_symlink allowAll fsW4 ["repo", "v"] ["home", ".v"] true).1
        (bakName (bakName ["home", ".v"])) = none) ∧
    (fsW4 (bakName ["home", ".v"]) = some (.file 8) ∧
      (create_symlink allowAll fsW4 ["repo", "v"] ["home", ".v"] true).1
        (bakName ["home", ".v"]) = some (.file 9) ∧
      (create_symlink allowAll fsW4 ["repo", "v"] ["home", ".v"] true).1
        ["home", ".v"] = some (.symlink ["repo", "v"])) :=
  ⟨⟨by decide,
    C4_backup_rotation.1 allowAll fsW4 ["repo", "v"] ["home", ".v"] ["home"]
      ".v" true rfl (by decide)⟩,
   ⟨by decide,
    (C4_backup_rotation.2 fsW4 ["repo", "v"] ["home", ".v"] ["home"] ".v"
      (.file 3) (.file 9) (.file 8) rfl (by decide) rfl (by decide) rfl
      (by decide)).1,
    (C4_backup_rotation.2 fsW4 ["repo", "v"] ["home", ".v"] ["home"] ".v"
      (.file 3) (.file 9) (.file 8) rfl (by decide) rfl (by decide) rfl
      (by decide)).2.1⟩⟩

/-! ### Claim C1: restore after failed link creation -/

/-- C1 (amended): when an existing conflicting destination entry (of any
kind) is successfully backed up and symlink creation then fails — with the
environment permitting the backup rotation, the backup rename, and the
restore rename — the call returns failure, never a created/success outcome.
The backup is renamed back onto the original destination path exactly when
the backup slot passes the `exists()` check at line 77 at that moment: then
the destination subtree holds its pre-run content; when the guard is false
(the backup is a dangling symlink), no restore is attempted and the content
stays in the backup slot. -/
theorem C1_restore_after_link_failure (pm : Perm) (fs : FS) (s d r : Path)
    (n : String) (es e : Entry)
    (hd : d = r ++ [n])
    (hs : fs s = some es) (hsl : es.isLink = false)
    (hde : fs d = some e) (hne : fs d ≠ some (.symlink s))
    (hren1 : pm.renameOk d (bakName d) = true)
    (hrm : pm.rmtreeOk (bakName d) = true)
    (hun : pm.unlinkOk (bakName d) = true)
    (hlink : pm.symlinkOk d = false)
    (hren2 : pm.renameOk (bakName d) d = true) :
    ∃ fs2 : FS,
      (∀ u, fs2 (bakName d ++ u) = fs (d ++ u)) ∧
      (∀ u, fs2 (d ++ u) = none) ∧
      (∀ q, leads d q = false → leads (bakName d) q = false → fs2 q = fs q) ∧
      (create_symlink pm fs s d true).2.2 = .ok false ∧
      (existsP fs2 (bakName d) = true →
        (create_symlink pm fs s d true).2.1 =
          [.okCreatedBackup, .errLinkFailed, .infoRestoring] ∧
        ∀ u, (create_symlink pm fs s d true).1 (d ++ u) = fs (d ++ u)) ∧
      (existsP fs2 (bakName d) = false →
        (create_symlink pm fs s d true).2.1 =
          [.okCreatedBackup, .errLinkFailed] ∧
        ∀ u, (create_symlink pm fs s d true).1 (bakName d ++ u) =
            fs (d ++ u) ∧
          (create_symlink pm fs s d true).1 (d ++ u) = none) := by
  have hsres : resolveP fs s = s := resolveP_nonlink fs s es hs hsl
  have hex : existsP fs (resolveP fs s) = true := by
    rw [hsres]
    exact existsP_nonlink fs s es hs hsl
  have hnc : (isSymlinkP fs d && (readlinkP fs d == some (resolveP fs s))) =
      false := by
    cases e with
    | file m => rw [isSymlinkP_nonlink fs d _ hde rfl]; rfl
    | dir => rw [isSymlinkP_nonlink fs d _ hde rfl]; rfl
    | symlink t =>
      have hts : t ≠ s := fun h => hne (by rw [hde, h])
      have hrl : readlinkP fs d = some t := by rw [readlinkP, hde]
      rw [hrl, hsres]
      have hbeq : ((some t == some s) : Bool) = false :=
        beq_eq_false_iff_ne.mpr (by simp [hts])
      rw [hbeq, Bool.and_false]
  have hguard : (existsP fs d || isSymlinkP fs d) = true := by
    cases e with
    | file m => rw [existsP_nonlink fs d _ hde rfl]; rfl
    | dir => rw [existsP_nonlink fs d _ hde rfl]; rfl
    | symlink t =>
      have hsym : isSymlinkP fs d = true := by rw [isSymlinkP, hde]
      rw [hsym, Bool.or_true]
  obtain ⟨fs2, hbak, hdnone, hdsub, hfr, heq⟩ :=
    create_symlink_conflict_backup pm fs s d r n e hd hex hde hnc hguard
      hren1 hrm hun
  have hse : symlinkOp pm fs2 d (resolveP fs s) = .error () :=
    symlinkOp_err pm fs2 d _ hlink
  refine ⟨fs2, hbak, hdsub, hfr, ?_, ?_, ?_⟩
  · cases hexb : existsP fs2 (bakName d) with
    | true =>
      have hrop : renameOp pm fs2 (bakName d) d =
          .ok (renameF fs2 (bakName d) d) :=
        renameOp_ok pm fs2 (bakName d) d hren2
          (isSome_of_existsP fs2 (bakName d) hexb)
      rw [heq, linkOrRestore, hse]
      simp [hexb, hrop]
    | false =>
      rw [heq, linkOrRestore, hse]
      simp [hexb]
  · intro hexb
    have hrop : renameOp pm fs2 (bakName d) d =
        .ok (renameF fs2 (bakName d) d) :=
      renameOp_ok pm fs2 (bakName d) d hren2
        (isSome_of_existsP fs2 (bakName d) hexb)
    have hlr : linkOrRestore pm fs2 (resolveP fs s) d true [.okCreatedBackup] =
        (renameF fs2 (bakName d) d,
          [.okCreatedBackup, .errLinkFailed, .infoRestoring], .ok false) := by
      rw [linkOrRestore, hse]
      simp [hexb, hrop]
    refine ⟨by rw [heq, hlr], ?_⟩
    intro u
    rw [heq, hlr]
    show renameF fs2 (bakName d) d (d ++ u) = fs (d ++ u)
    rw [renameF_dst_append fs2 (bakName d) d u]
    exact hbak u
  · intro hexb
    have hlr : linkOrRestore pm fs2 (resolveP fs s) d true [.okCreatedBackup] =
        (fs2, [.okCreatedBackup, .errLinkFailed], .ok false) := by
      rw [linkOrRestore, hse]
      simp [hexb]
    refine ⟨by rw [heq, hlr], ?_⟩
    intro u
    rw [heq, hlr]
    exact ⟨hbak u, hdsub u⟩

/-- Concrete filesystem for the C1 witness: the destination is a live wrong
symlink (its target exists), so its backup passes the `exists()` guard. -/
def fsW1 : FS := fun p =>
  if p = ["repo", "v"] then some (.file 3)
  else if p = ["home", ".v"] then some (.symlink ["home", "old"])
  else if p = ["home", "old"] then some (.file 7) else none

/-- Environment for the C1 witness: symlink creation is forbidden (e.g. no
permission on the parent directory), everything else permitted. -/
def pmW1 : Perm :=
  { renameOk := fun _ _ => true
    unlinkOk := fun _ => true
    rmtreeOk := fun _ => true
    symlinkOk := fun _ => false }

/-- C1 witness: a backed-up live wrong symlink passes the guard and is
restored onto the destination after the failed link creation. -/
theorem C1_witness :
    (create_symlink pmW1 fsW1 ["repo", "v"] ["home", ".v"] true).2.2 =
      .ok false ∧
    (create_symlink pmW1 fsW1 ["repo", "v"] ["home", ".v"] true).2.1 =
      [.okCreatedBackup, .errLinkFailed, .infoRestoring] ∧
    (create_symlink pmW1 fsW1 ["repo", "v"] ["home", ".v"] true).1
      ["home", ".v"] = some (.symlink ["home", "old"]) := by
  obtain ⟨fs2, hbak, hdsub, hfr, hok, hres, hnores⟩ :=
    C1_restore_after_link_failure pmW1 fsW1 ["repo", "v"] ["home", ".v"]
      ["home"] ".v" (.file 3) (.symlink ["home", "old"]) rfl (by decide) rfl
      (by decide) (by decide) rfl rfl rfl rfl rfl
  have hb : fs2 (bakName ["home", ".v"]) = some (.symlink ["home", "old"]) := by
    have := hbak []
    rw [List.append_nil, List.append_nil] at this
    rw [this]
    decide
  have hot : fs2 ["home", "old"] = some (.file 7) := by
    rw [hfr ["home", "old"] (by decide) (by decide)]
    decide
  have hexb : existsP fs2 (bakName ["home", ".v"]) = true := by
    have hres2 : resolveP fs2 (bakName ["home", ".v"]) = ["home", "old"] := by
      rw [resolveP, show (40 : Nat) = 39 + 1 from rfl, resolveFuel_succ, hb]
      exact resolveFuel_nonlink fs2 39 ["home", "old"] (.file 7) hot rfl
    rw [existsP, hres2, hot]
  obtain ⟨hmsgs, hrestore⟩ := hres hexb
  refine ⟨hok, hmsgs, ?_⟩
  have := hrestore []
  rw [List.append_nil] at this
  rw [this]
  decide

/-- Concrete filesystem refuting C1 as stated: the destination is a dangling
wrong symlink, so its backup is a dangling symlink too. -/
def fsX1 : FS := fun p =>
  if p = ["s"] then some (.file 0)
  else if p = ["d"] then some (.symlink ["x"]) else none

/-- Environment for the C1 counterexample: symlink creation fails, all else
permitted (the backup rename at line 53 succeeds). -/
def pmX1 : Perm :=
  { renameOk := fun _ _ => true
    unlinkOk := fun _ => true
    rmtreeOk := fun _ => true
    symlinkOk := fun _ => false }

/-- C1 counterexample: the backup is successfully created (`okCreatedBackup`
reported) and link creation then fails, yet the backup is *not* renamed back
— the `exists()` guard at line 77 is false for the dangling backup symlink —
so the destination is left absent instead of holding its pre-run content,
which remains stranded in the backup slot. -/
theorem C1_counterexample :
    fsX1 ["d"] = some (.symlink ["x"]) ∧
    (create_symlink pmX1 fsX1 ["s"] ["d"] true).2.1 =
      [.okCreatedBackup, .errLinkFailed] ∧
    (create_symlink pmX1 fsX1 ["s"] ["d"] true).2.2 = .ok false ∧
    (create_symlink pmX1 fsX1 ["s"] ["d"] true).1 ["d"] = none ∧
    (create_symlink pmX1 fsX1 ["s"] ["d"] true).1 (bakName ["d"]) =
      some (.symlink ["x"]) :=
  ⟨by decide, by decide, rfl, by decide, by decide⟩

/-! ### Claim C9: the restore guard is a plain `exists()` test on the slot -/

/-- C9: (i) if link creation fails with backup requested and the backup slot
holds a real file at that moment — even though *no* backup was created
during this call (the destination was absent; the slot is a stale leftover)
— line 79 renames that stale backup onto the destination; (ii) conversely,
when the backup created during this call is a dangling symlink, the
`exists()` guard is false and no restore is attempted. -/
theorem C9_restore_guard :
    (∀ (pm : Perm) (fs : FS) (s d r : Path) (n : String) (es : Entry) (m : Nat),
      d = r ++ [n] → fs s = some es → es.isLink = false → fs d = none →
      fs (bakName d) = some (.file m) →
      pm.symlinkOk d = false → pm.renameOk (bakName d) d = true →
      (create_symlink pm fs s d true).2.1 = [.errLinkFailed, .infoRestoring] ∧
      (create_symlink pm fs s d true).1 d = some (.file m) ∧
      (create_symlink pm fs s d true).1 (bakName d) = none ∧
      (create_symlink pm fs s d true).2.2 = .ok false) ∧
    (∀ (pm : Perm) (fs : FS) (s d r : Path) (n : String) (es : Entry) (t : Path),
      d = r ++ [n] → fs s = some es → es.isLink = false →
      fs d = some (.symlink t) → t ≠ s → fs t = none →
      leads d t = false → leads (bakName d) t = false →
      pm.renameOk d (bakName d) = true → pm.rmtreeOk (bakName d) = true →
      pm.unlinkOk (bakName d) = true → pm.symlinkOk d = false →
      (create_symlink pm fs s d true).2.1 = [.okCreatedBackup, .errLinkFailed] ∧
      (create_symlink pm fs s d true).1 d = none ∧
      (create_symlink pm fs s d true).1 (bakName d) = some (.symlink t) ∧
      (create_symlink pm fs s d true).2.2 = .ok false) := by
  constructor
  · intro pm fs s d r n es m hd hs hsl hde hbk hlink hren
    have hsres : resolveP fs s = s := resolveP_nonlink fs s es hs hsl
    have hex : existsP fs (resolveP fs s) = true := by
      rw [hsres]
      exact existsP_nonlink fs s es hs hsl
    have heq := create_symlink_absent pm fs s d true hex hde
    have hexb : existsP fs (bakName d) = true :=
      existsP_nonlink fs (bakName d) (.file m) hbk rfl
    have hrop : renameOp pm fs (bakName d) d = .ok (renameF fs (bakName d) d) :=
      renameOp_ok pm fs (bakName d) d hren (by rw [hbk]; rfl)
    have hse : symlinkOp pm fs d (resolveP fs s) = .error () :=
      symlinkOp_err pm fs d _ hlink
    have hlr : linkOrRestore pm fs (resolveP fs s) d true [] =
        (renameF fs (bakName d) d, [.errLinkFailed, .infoRestoring],
          .ok false) := by
      rw [linkOrRestore, hse]
      simp [hexb, hrop]
    have hdb : leads d (bakName d) = false := by
      subst hd
      have := leads_dest_bak r n []
      rwa [List.append_nil] at this
    refine ⟨?_, ?_, ?_, ?_⟩
    · rw [heq, hlr]
    · rw [heq, hlr]
      show renameF fs (bakName d) d d = some (.file m)
      rw [renameF_dst, hbk]
    · rw [heq, hlr]
      show renameF fs (bakName d) d (bakName d) = none
      exact renameF_src fs (bakName d) d hdb
    · rw [heq, hlr]
  · intro pm fs s d r n es t hd hs hsl hde hts ht hlt hlbt hren hrm hun hlink
    have hsres : resolveP fs s = s := resolveP_nonlink fs s es hs hsl
    have hex : existsP fs (resolveP fs s) = true := by
      rw [hsres]
      exact existsP_nonlink fs s es hs hsl
    have hrl : readlinkP fs d = some t := by rw [readlinkP, hde]
    have hnc : (isSymlinkP fs d && (readlinkP fs d == some (resolveP fs s))) =
        false := by
      rw [hrl, hsres]
      have : ((some t == some s) : Bool) = false :=
        beq_eq_false_iff_ne.mpr (by simp [hts])
      rw [this, Bool.and_false]
    have hsym : isSymlinkP fs d = true := by rw [isSymlinkP, hde]
    have hguard : (existsP fs d || isSymlinkP fs d) = true := by
      rw [hsym, Bool.or_true]
    obtain ⟨fs2, hbak, hdnone, hdsub, hfr, heq⟩ :=
      create_symlink_conflict_backup pm fs s d r n (.symlink t) hd hex hde
        hnc hguard hren hrm hun
    have hbake : fs2 (bakName d) = some (.symlink t) := by
      have := hbak []
      rwa [List.append_nil, List.append_nil, hde] at this
    have hfs2t : fs2 t = none := by
      rw [hfr t hlt hlbt, ht]
    have hres2 : resolveP fs2 (bakName d) = t := by
      rw [resolveP, show (40 : Nat) = 39 + 1 from rfl, resolveFuel_succ, hbake]
      exact resolveFuel_none fs2 39 t hfs2t
    have hexb : existsP fs2 (bakName d) = false := by
      rw [existsP, hres2, hfs2t]
    have hse : symlinkOp pm fs2 d (resolveP fs s) = .error () :=
      symlinkOp_err pm fs2 d _ hlink
    have hlr : linkOrRestore pm fs2 (resolveP fs s) d true [.okCreatedBackup] =
        (fs2, [.okCreatedBackup, .errLinkFailed], .ok false) := by
      rw [linkOrRestore, hse]
      simp [hexb]
    exact ⟨by rw [heq, hlr], by rw [heq, hlr]; exact hdnone,
      by rw [heq, hlr]; exact hbake, by rw [heq, hlr]⟩

/-- Concrete filesystem for C9 part (i): destination absent, stale backup. -/
def fsW9a : FS := fun p =>
  if p = ["repo", "v"] then some (.file 3)
  else if p = ["home", ".v.bak"] then some (.file 5) else none

/-- Concrete filesystem for C9 part (ii): dangling wrong destination link. -/
def fsW9b : FS := fun p =>
  if p = ["repo", "v"] then some (.file 3)
  else if p = ["home", ".v"] then some (.symlink ["home", "old"]) else none

/-- Environment for the C9 witness: only symlink creation fails. -/
def pmW9 : Perm :=
  { renameOk := fun _ _ => true
    unlinkOk := fun _ => true
    rmtreeOk := fun _ => true
    symlinkOk := fun _ => false }

/-- C9 witness: both conjuncts at concrete inputs. -/
theorem C9_witness :
    ((create_symlink pmW9 fsW9a ["repo", "v"] ["home", ".v"] true).1
        ["home", ".v"] = some (.file 5) ∧
      (create_symlink pmW9 fsW9a ["repo", "v"] ["home", ".v"] true).2.1 =
        [.errLinkFailed, .infoRestoring]) ∧
    ((create_symlink pmW9 fsW9b ["repo", "v"] ["home", ".v"] true).1
        ["home", ".v"] = none ∧
      (create_symlink pmW9 fsW9b ["repo", "v"] ["home", ".v"] true).2.1 =
        [.okCreatedBackup, .errLinkFailed]) :=
  ⟨⟨(C9_restore_guard.1 pmW9 fsW9a ["repo", "v"] ["home", ".v"] ["home"] ".v"
      (.file 3) 5 rfl (by decide) rfl (by decide) (by decide) rfl rfl).2.1,
    (C9_restore_guard.1 pmW9 fsW9a ["repo", "v"] ["home", ".v"] ["home"] ".v"
      (.file 3) 5 rfl (by decide) rfl (by decide) (by decide) rfl rfl).1⟩,
   ⟨(C9_restore_guard.2 pmW9 fsW9b ["repo", "v"] ["home", ".v"] ["home"] ".v"
      (.file 3) ["home", "old"] rfl (by decide) rfl (by decide) (by decide)
      (by decide) (by decide) (by decide) rfl rfl rfl rfl).2.1,
    (C9_restore_guard.2 pmW9 fsW9b ["repo", "v"] ["home", ".v"] ["home"] ".v"
      (.file 3) ["home", "old"] rfl (by decide) rfl (by decide) (by decide)
      (by decide) (by decide) (by decide) rfl rfl rfl rfl).1⟩⟩

/-! ### Claim C3: exception propagation -/

/-- C3 (amended): every failure kind is caught and converted into a boolean
outcome — *except* that the restore rename at line 79 runs unguarded inside
the `except` handler: whenever the environment permits that rename, the call
returns an outcome normally (no exception escapes), and only a failing
restore can let an exception propagate. -/
theorem C3_caught_unless_restore_fails (pm : Perm) (fs : FS) (s d : Path)
    (b : Bool) (hres : pm.renameOk (bakName d) d = true) :
    ∃ v, (create_symlink pm fs s d b).2.2 = .ok v := by
  rw [create_symlink]
  split
  · exact ⟨false, rfl⟩
  · split
    · exact ⟨true, rfl⟩
    · split
      · exact ⟨false, rfl⟩
      · rw [linkOrRestore]
        split
        · exact ⟨true, rfl⟩
        · split
          · split
            · rename_i hexb
              split
              · exact ⟨false, rfl⟩
              · rename_i u heq3
                exact absurd heq3
                  (renameOp_ne_error pm _ _ _ u hres
                    (isSome_of_existsP _ _ hexb))
            · exact ⟨false, rfl⟩
          · exact ⟨false, rfl⟩

/-- Concrete input for the C3 witness. -/
def fsW3 : FS := fun p =>
  if p = ["s3"] then some (.file 0)
  else if p = ["d3"] then some (.file 1) else none

/-- Environment for the C3 witness: link creation fails, restore permitted. -/
def pmW3 : Perm :=
  { renameOk := fun _ _ => true
    unlinkOk := fun _ => true
    rmtreeOk := fun _ => true
    symlinkOk := fun _ => false }

/-- C3 witness. -/
theorem C3_witness :
    pmW3.renameOk (bakName ["d3"]) ["d3"] = true ∧
    ∃ v, (create_symlink pmW3 fsW3 ["s3"] ["d3"] true).2.2 = .ok v :=
  ⟨by decide,
    C3_caught_unless_restore_fails pmW3 fsW3 ["s3"] ["d3"] true (by decide)⟩

/-- Concrete input refuting C3 as stated: destination a real file, symlink
creation fails, and the restore rename from the backup slot also fails. -/
def fsX3 : FS := fun p =>
  if p = ["s"] then some (.file 0)
  else if p = ["d"] then some (.file 1) else none

/-- Environment for the C3 counterexample: the backup rename `d → d.bak`
succeeds but the restore rename `d.bak → d` is forbidden, and symlink
creation fails. -/
def pmX3 : Perm :=
  { renameOk := fun a c => !(a == bakName ["d"] && c == ["d"])
    unlinkOk := fun _ => true
    rmtreeOk := fun _ => true
    symlinkOk := fun _ => false }

/-- C3 counterexample: when the restore itself fails (the DoubleFault
scenario), `create_symlink` does *not* convert the error into a per-mapping
outcome: the exception escapes the method (`.error ()`), with the original
content stranded in the backup slot and the destination left empty. -/
theorem C3_counterexample :
    (create_symlink pmX3 fsX3 ["s"] ["d"] true).2.2 = .error () ∧
    (create_symlink pmX3 fsX3 ["s"] ["d"] true).1 ["d"] = none ∧
    (create_symlink pmX3 fsX3 ["s"] ["d"] true).1 (bakName ["d"]) =
      some (.file 1) ∧
    fsX3 ["d"] = some (.file 1) :=
  ⟨rfl, by decide, by decide, by decide⟩

/-! ### Claim C5: idempotence -/

/-- Line 68 succeeding: the new symlink is created. -/
theorem linkOrRestore_success (pm : Perm) (fs1 : FS) (s d : Path) (b : Bool)
    (ms : List Msg) (hok : pm.symlinkOk d = true) (hdnone : fs1 d = none) :
    linkOrRestore pm fs1 s d b ms =
      ((fun q => if q = d then some (.symlink s) else fs1 q),
        ms ++ [.okCreatedLink], .ok true) := by
  rw [linkOrRestore, symlinkOp_ok pm fs1 d s hok hdnone]

/-- In a healthy environment, with an existing non-symlink source and a
destination that is not already the correct link, `create_symlink` succeeds
and leaves the desired symlink at the destination, the source untouched. -/
theorem create_symlink_creates (fs : FS) (s d r : Path) (n : String)
    (es : Entry) (b : Bool)
    (hd : d = r ++ [n]) (hs : fs s = some es) (hsl : es.isLink = false)
    (hnotcorrect : fs d ≠ some (.symlink s))
    (hlds : leads d s = false) (hlbs : leads (bakName d) s = false) :
    (create_symlink allowAll fs s d b).2.2 = .ok true ∧
    Msg.okCreatedLink ∈ (create_symlink allowAll fs s d b).2.1 ∧
    (create_symlink allowAll fs s d b).1 d = some (.symlink s) ∧
    (create_symlink allowAll fs s d b).1 s = fs s := by
  have hsres : resolveP fs s = s := resolveP_nonlink fs s es hs hsl
  have hex : existsP fs (resolveP fs s) = true := by
    rw [hsres]
    exact existsP_nonlink fs s es hs hsl
  have hsd : s ≠ d := ne_of_leads_false _ _ hlds
  cases hde : fs d with
  | none =>
    have heq := create_symlink_absent allowAll fs s d b hex hde
    rw [hsres] at heq
    have hlr := linkOrRestore_success allowAll fs s d b [] rfl hde
    rw [heq, hlr]
    refine ⟨rfl, by simp, by simp, ?_⟩
    show (if s = d then some (.symlink s) else fs s) = fs s
    rw [if_neg hsd]
  | some e =>
    have hnc : (isSymlinkP fs d &&
        (readlinkP fs d == some (resolveP fs s))) = false := by
      cases e with
      | file m => rw [isSymlinkP_nonlink fs d _ hde rfl]; rfl
      | dir => rw [isSymlinkP_nonlink fs d _ hde rfl]; rfl
      | symlink t =>
        have hts : t ≠ s := by
          intro h
          exact hnotcorrect (by rw [hde, h])
        have hrl : readlinkP fs d = some t := by rw [readlinkP, hde]
        rw [hrl, hsres]
        have hbeq : ((some t == some s) : Bool) = false :=
          beq_eq_false_iff_ne.mpr (by simp [hts])
        rw [hbeq, Bool.and_false]
    have hguard : (existsP fs d || isSymlinkP fs d) = true := by
      cases e with
      | file m => rw [existsP_nonlink fs d _ hde rfl]; rfl
      | dir => rw [existsP_nonlink fs d _ hde rfl]; rfl
      | symlink t =>
        have : isSymlinkP fs d = true := by rw [isSymlinkP, hde]
        rw [this, Bool.or_true]
    cases b with
    | true =>
      obtain ⟨fs2, hbak, hdnone, hdsub, hfr, heq⟩ :=
        create_symlink_conflict_backup allowAll fs s d r n e hd hex hde hnc
          hguard rfl rfl rfl
      rw [hsres] at heq
      have hlr := linkOrRestore_success allowAll fs2 s d true
        [.okCreatedBackup] rfl hdnone
      rw [heq, hlr]
      refine ⟨rfl, by simp, ?_, ?_⟩
      · show (if d = d then some (.symlink s) else fs2 d) = some (.symlink s)
        rw [if_pos rfl]
      · show (if s = d then some (.symlink s) else fs2 s) = fs s
        rw [if_neg hsd]
        exact hfr s hlds hlbs
    | false =>
      obtain ⟨fs1, hdnone, hfr, heq⟩ :=
        create_symlink_conflict_clear allowAll fs s d e hex hde hnc hguard
          rfl rfl
      rw [hsres] at heq
      have hlr := linkOrRestore_success allowAll fs1 s d false [] rfl hdnone
      rw [heq, hlr]
      refine ⟨rfl, by simp, ?_, ?_⟩
      · show (if d = d then some (.symlink s) else fs1 d) = some (.symlink s)
        rw [if_pos rfl]
      · show (if s = d then some (.symlink s) else fs1 s) = fs s
        rw [if_neg hsd]
        exact hfr s hlds

/-- C5: in a healthy environment, for a mapping whose source exists (a real
non-symlink entry outside the destination's and backup slot's subtrees) and
whose destination is not already the correct link, running `create_symlink`
twice in a row yields a created outcome first, then the already-correct
outcome, and the second call is the identity on the filesystem — in
particular no second backup file is produced. -/
theorem C5_idempotent (fs : FS) (s d r : Path) (n : String) (es : Entry)
    (b : Bool)
    (hd : d = r ++ [n]) (hs : fs s = some es) (hsl : es.isLink = false)
    (hnotcorrect : fs d ≠ some (.symlink s))
    (hlds : leads d s = false) (hlbs : leads (bakName d) s = false) :
    (create_symlink allowAll fs s d b).2.2 = .ok true ∧
    Msg.okCreatedLink ∈ (create_symlink allowAll fs s d b).2.1 ∧
    create_symlink allowAll ((create_symlink allowAll fs s d b).1) s d b =
      ((create_symlink allowAll fs s d b).1, [.okAlreadyCorrect], .ok true) := by
  obtain ⟨hok, hmem, hdlink, hssame⟩ :=
    create_symlink_creates fs s d r n es b hd hs hsl hnotcorrect hlds hlbs
  refine ⟨hok, hmem, ?_⟩
  have hs1 : (create_symlink allowAll fs s d b).1 s = some es := by
    rw [hssame, hs]
  have hres1 : resolveP ((create_symlink allowAll fs s d b).1) s = s :=
    resolveP_nonlink _ s es hs1 hsl
  apply create_symlink_already_correct
  · rw [hres1]
    exact existsP_nonlink _ s es hs1 hsl
  · rw [hres1]
    exact hdlink

/-- Concrete filesystem for the C5 witness: conflicting real file at the
destination. -/
def fsW5 : FS := fun p =>
  if p = ["repo", "v"] then some (.file 3)
  else if p = ["home", ".v"] then some (.file 9) else none

/-- C5 witness. -/
theorem C5_witness :
    (create_symlink allowAll fsW5 ["repo", "v"] ["home", ".v"] true).2.2 =
      .ok true ∧
    Msg.okCreatedLink ∈
      (create_symlink allowAll fsW5 ["repo", "v"] ["home", ".v"] true).2.1 ∧
    create_symlink allowAll
        ((create_symlink allowAll fsW5 ["repo", "v"] ["home", ".v"] true).1)
        ["repo", "v"] ["home", ".v"] true =
      ((create_symlink allowAll fsW5 ["repo", "v"] ["home", ".v"] true).1,
        [.okAlreadyCorrect], .ok true) :=
  C5_idempotent fsW5 ["repo", "v"] ["home", ".v"] ["home"] ".v" (.file 3)
    true rfl (by decide) rfl (by decide) (by decide) (by decide)

/-! ### Claim C7: batch order and aggregate -/

/-- The batch loop processes files in input order threading the filesystem
and prompt counter; whenever every mapping returns an outcome (no escaping
exception), the loop's result is the accumulator and-ed with the conjunction
of all per-mapping outcomes — it continues past failed mappings. -/
theorem symlinkLoop_all (pm : Perm) (inp : Nat → Option String)
    (mk : String → Path × Path) (files : List String) :
    ∀ (fs : FS) (k : Nat) (acc : Bool) (bs : List Bool),
      loopOutcomes pm inp mk files fs k = some bs →
      (symlinkLoop pm inp mk files fs k acc).2.2.2 = .ok (acc && bs.all id) := by
  induction files with
  | nil =>
    intro fs k acc bs h
    simp only [loopOutcomes, Option.some.injEq] at h
    subst h
    simp [symlinkLoop]
  | cons f rest ih =>
    intro fs k acc bs h
    rcases hstep : linkStep pm inp (mk f).1 (mk f).2 fs k with ⟨fs1, k1, ms, rr⟩
    rw [loopOutcomes, hstep] at h
    cases rr with
    | error e => simp at h
    | ok bb =>
      simp only [Option.map_eq_some'] at h
      obtain ⟨bs', hrest, hbs⟩ := h
      subst hbs
      rw [symlinkLoop, hstep]
      have ihh := ih fs1 k1 (acc && bb) bs' hrest
      rcases hloop : symlinkLoop pm inp mk rest fs1 k1 (acc && bb) with
        ⟨fs2, k2, ms2, r2⟩
      rw [hloop] at ihh
      dsimp only
      rw [hloop]
      show r2 = .ok (acc && (bb :: bs').all id)
      have ihh2 : r2 = .ok ((acc && bb) && bs'.all id) := ihh
      rw [ihh2]
      simp [Bool.and_assoc]

/-- C7: both batch orchestrators process mappings strictly in input order,
continue past per-mapping failures, and — whenever every mapping returns an
outcome — their aggregate boolean is exactly the logical AND of the ordered
per-mapping outcomes. -/
theorem C7_batch_and (pm : Perm) (inp : Nat → Option String)
    (mgr : SymlinkManager) (files : List String) (fs : FS) :
    (∀ bs, loopOutcomes pm inp (dotfilesMk mgr) files fs 0 = some bs →
      (setup_dotfiles_symlinks pm inp mgr files fs).2.2.2 = .ok (bs.all id)) ∧
    (∀ bs, loopOutcomes pm inp (configMk mgr) files
        (mkdirIfMissing fs (mgr.home_dir ++ [".config"])) 0 = some bs →
      (setup_config_symlinks pm inp mgr files fs).2.2.2 = .ok (bs.all id)) := by
  constructor
  · intro bs h
    have h2 := symlinkLoop_all pm inp (dotfilesMk mgr) files fs 0 true bs h
    rw [Bool.true_and] at h2
    exact h2
  · intro bs h
    have h2 := symlinkLoop_all pm inp (configMk mgr) files
      (mkdirIfMissing fs (mgr.home_dir ++ [".config"])) 0 true bs h
    rw [Bool.true_and] at h2
    exact h2

/-- Manager for the C7 witness. -/
def mgrW7 : SymlinkManager := { dotfiles_dir := ["df"], home_dir := ["home"] }

/-- Input channel for the C7 witness: unavailable (defaults apply). -/
def inpW7 : Nat → Option String := fun _ => none

/-- Environment for the C7 witness: renaming the second destination is
forbidden, so its mapping fails with the destination-not-clear error. -/
def pmW7 : Perm :=
  { renameOk := fun a _ => !(a == ["home", ".b"])
    unlinkOk := fun _ => true
    rmtreeOk := fun _ => true
    symlinkOk := fun _ => true }

/-- Filesystem for the C7 witness: three sources, a conflicting `.b`. -/
def fsW7 : FS := fun p =>
  if p = ["df", "src", "assets", "a"] then some (.file 1)
  else if p = ["df", "src", "assets", "b"] then some (.file 2)
  else if p = ["df", "src", "assets", "c"] then some (.file 3)
  else if p = ["home", ".b"] then some (.file 9) else none

/-- C7 witness: batch of three where the second fails — first and third are
still reconciled (their links exist afterwards), the second's content is
untouched, and the aggregate is failure. -/
theorem C7_witness :
    loopOutcomes pmW7 inpW7 (dotfilesMk mgrW7) ["a", "b", "c"] fsW7 0 =
      some [true, false, true] ∧
    (setup_dotfiles_symlinks pmW7 inpW7 mgrW7 ["a", "b", "c"] fsW7).2.2.2 =
      .ok false ∧
    (setup_dotfiles_symlinks pmW7 inpW7 mgrW7 ["a", "b", "c"] fsW7).1
      ["home", ".a"] = some (.symlink ["df", "src", "assets", "a"]) ∧
    (setup_dotfiles_symlinks pmW7 inpW7 mgrW7 ["a", "b", "c"] fsW7).1
      ["home", ".c"] = some (.symlink ["df", "src", "assets", "c"]) ∧
    (setup_dotfiles_symlinks pmW7 inpW7 mgrW7 ["a", "b", "c"] fsW7).1
      ["home", ".b"] = some (.file 9) :=
  ⟨by decide,
   (C7_batch_and pmW7 inpW7 mgrW7 ["a", "b", "c"] fsW7).1 [true, false, true]
     (by decide),
   by decide, by decide, by decide⟩

/-! ### Claim C8: unavailable confirmation channel defaults to backup -/

/-- A conflicting real-file destination with backup requested: the backup is
reported and the displaced content survives at the backup slot or (after a
restore) back at the destination — in every environment that permits the
clearing rename, whatever happens at link-creation time. -/
theorem create_symlink_backs_up (pm : Perm) (fs : FS) (s d r : Path)
    (n : String) (es : Entry) (m : Nat)
    (hd : d = r ++ [n]) (hs : fs s = some es) (hsl : es.isLink = false)
    (hde : fs d = some (.file m))
    (hren : pm.renameOk d (bakName d) = true)
    (hrm : pm.rmtreeOk (bakName d) = true)
    (hun : pm.unlinkOk (bakName d) = true) :
    Msg.okCreatedBackup ∈ (create_symlink pm fs s d true).2.1 ∧
    ((create_symlink pm fs s d true).1 (bakName d) = some (.file m) ∨
      (create_symlink pm fs s d true).1 d = some (.file m)) := by
  have hsres : resolveP fs s = s := resolveP_nonlink fs s es hs hsl
  have hex : existsP fs (resolveP fs s) = true := by
    rw [hsres]
    exact existsP_nonlink fs s es hs hsl
  have hnc : (isSymlinkP fs d && (readlinkP fs d == some (resolveP fs s))) =
      false := by
    rw [isSymlinkP_nonlink fs d _ hde rfl]
    rfl
  have hguard : (existsP fs d || isSymlinkP fs d) = true := by
    rw [existsP_nonlink fs d _ hde rfl]
    rfl
  obtain ⟨fs2, hbak, hdnone, hdsub, hfr, heq⟩ :=
    create_symlink_conflict_backup pm fs s d r n _ hd hex hde hnc hguard
      hren hrm hun
  have hbake : fs2 (bakName d) = some (.file m) := by
    have := hbak []
    rwa [List.append_nil, List.append_nil, hde] at this
  have hbdd : bakName d ≠ d := by
    apply ne_of_leads_false
    subst hd
    have := leads_dest_bak r n []
    rwa [List.append_nil] at this
  rw [heq]
  cases hso : symlinkOp pm fs2 d (resolveP fs s) with
  | ok fs3 =>
    have hX : linkOrRestore pm fs2 (resolveP fs s) d true [.okCreatedBackup] =
        (fs3, [.okCreatedBackup, .okCreatedLink], .ok true) := by
      rw [linkOrRestore, hso]
      rfl
    rw [hX]
    refine ⟨by simp, Or.inl ?_⟩
    show fs3 (bakName d) = some (.file m)
    rw [symlinkOp_frame pm fs2 fs3 d _ (bakName d) hso hbdd, hbake]
  | error u =>
    have hexb : existsP fs2 (bakName d) = true :=
      existsP_nonlink fs2 _ (.file m) hbake rfl
    cases hrr : renameOp pm fs2 (bakName d) d with
    | ok fs4 =>
      have hX : linkOrRestore pm fs2 (resolveP fs s) d true
          [.okCreatedBackup] =
          (fs4, [.okCreatedBackup, .errLinkFailed, .infoRestoring],
            .ok false) := by
        rw [linkOrRestore, hso]
        simp [hexb, hrr]
      rw [hX]
      refine ⟨by simp, Or.inr ?_⟩
      rw [renameOp_eq pm fs2 fs4 _ _ hrr]
      show renameF fs2 (bakName d) d d = some (.file m)
      rw [renameF_dst, hbake]
    | error u2 =>
      have hX : linkOrRestore pm fs2 (resolveP fs s) d true
          [.okCreatedBackup] =
          (fs2, [.okCreatedBackup, .errLinkFailed, .infoRestoring],
            .error ()) := by
        rw [linkOrRestore, hso]
        simp [hexb, hrr]
      rw [hX]
      exact ⟨by simp, Or.inl hbake⟩

/-- C8: when the destination conflicts and the confirmation input channel
cannot answer (`EOFError`), the per-file step emits the warning, defaults to
creating a backup (the backup-created report appears), and the displaced
content ends up backed up — at the slot, or restored to the destination —
never silently deleted. -/
theorem C8_eof_defaults_to_backup (pm : Perm) (inp : Nat → Option String)
    (fs : FS) (dest src r : Path) (n : String) (k : Nat) (es : Entry) (m : Nat)
    (hd : dest = r ++ [n])
    (hs : fs src = some es) (hsl : es.isLink = false)
    (hde : fs dest = some (.file m))
    (hinp : inp k = none)
    (hren : pm.renameOk dest (bakName dest) = true)
    (hrm : pm.rmtreeOk (bakName dest) = true)
    (hun : pm.unlinkOk (bakName dest) = true) :
    Msg.warnNoInput ∈ (linkStep pm inp dest src fs k).2.2.1 ∧
    Msg.okCreatedBackup ∈ (linkStep pm inp dest src fs k).2.2.1 ∧
    ((linkStep pm inp dest src fs k).1 (bakName dest) = some (.file m) ∨
      (linkStep pm inp dest src fs k).1 dest = some (.file m)) := by
  have hpre : (isSymlinkP fs dest &&
      (readlinkP fs dest == some (resolveP fs src))) = false := by
    rw [isSymlinkP_nonlink fs dest _ hde rfl]
    rfl
  have hguard : (existsP fs dest || isSymlinkP fs dest) = true := by
    rw [existsP_nonlink fs dest _ hde rfl]
    rfl
  rcases hcs : create_symlink pm fs src dest true with ⟨fs1, ms2, rr⟩
  have hstep : linkStep pm inp dest src fs k =
      (fs1, k + 1, [Msg.warnNoInput] ++ ms2, rr) := by
    rw [linkStep]
    simp [hpre, hguard, hinp, hcs]
  obtain ⟨hmem, hor⟩ := create_symlink_backs_up pm fs src dest r n es m hd hs
    hsl hde hren hrm hun
  rw [hcs] at hmem hor
  rw [hstep]
  exact ⟨by simp, List.mem_append.mpr (Or.inr hmem), hor⟩

/-- Filesystem for the C8 witness. -/
def fsW8 : FS := fun p =>
  if p = ["repo", "v"] then some (.file 3)
  else if p = ["home", ".v"] then some (.file 9) else none

/-- Unavailable input channel for the C8 witness. -/
def inpW8 : Nat → Option String := fun _ => none

/-- C8 witness. -/
theorem C8_witness :
    Msg.warnNoInput ∈
      (linkStep allowAll inpW8 ["home", ".v"] ["repo", "v"] fsW8 0).2.2.1 ∧
    Msg.okCreatedBackup ∈
      (linkStep allowAll inpW8 ["home", ".v"] ["repo", "v"] fsW8 0).2.2.1 ∧
    ((linkStep allowAll inpW8 ["home", ".v"] ["repo", "v"] fsW8 0).1
        (bakName ["home", ".v"]) = some (.file 9) ∨
      (linkStep allowAll inpW8 ["home", ".v"] ["repo", "v"] fsW8 0).1
        ["home", ".v"] = some (.file 9)) :=
  C8_eof_defaults_to_backup allowAll inpW8 fsW8 ["home", ".v"] ["repo", "v"]
    ["home"] ".v" 0 (.file 3) 9 rfl (by decide) rfl (by decide) rfl rfl rfl
    rfl

end Symlinker
